import Mathlib

/-!
Verification of `src/scripts/prepare_tweet_contents.py`, a script that
extracts tweet identifiers from a fact-checking CSV, chunks them into
batches, fetches them from the X API, and persists per-tweet data and
media.  The Python functions are shallowly embedded as executable Lean
definitions; external collaborators (HTTP transport, the filesystem
clock and sleep) are modelled as oracles / event traces.
-/

set_option autoImplicit false
set_option maxRecDepth 100000

namespace PrepareTweetContents

/-! ### Chunker: `chunk_list`

Python source:
`return [lst[i : i + chunk_size] for i in range(0, len(lst), chunk_size)]`
`range(0, n, step)` (for `step > 0`) has `⌈n / step⌉` elements, the `k`-th
being `k * step`, and `lst[i : i + c]` is `(lst.drop i).take c`.
(For `chunk_size = 0` Python raises `ValueError`; the claims only concern
positive chunk sizes.) -/

def chunk_list {α : Type} (lst : List α) (chunk_size : Nat) : List (List α) :=
  (List.range ((lst.length + chunk_size - 1) / chunk_size)).map
    (fun k => (lst.drop (k * chunk_size)).take chunk_size)

theorem chunk_list_nil {α : Type} (cs : Nat) : chunk_list ([] : List α) cs = [] := by
  have h : (cs - 1) / cs = 0 := by
    cases cs with
    | zero => simp
    | succ n =>
      apply Nat.div_eq_of_lt
      omega
  simp [chunk_list, h]

theorem chunk_list_cons {α : Type} (l : List α) (cs : Nat) (h : 0 < cs) (hl : l ≠ []) :
    chunk_list l cs = l.take cs :: chunk_list (l.drop cs) cs := by
  have hlen : 1 ≤ l.length := by
    cases l with
    | nil => exact absurd rfl hl
    | cons a as => simp
  have hdiv : (l.length + cs - 1) / cs = (l.length - cs + cs - 1) / cs + 1 := by
    rcases le_or_lt l.length cs with hle | hlt
    · have h0 : l.length - cs = 0 := by omega
      rw [h0]
      have h1 : (0 + cs - 1) / cs = 0 := Nat.div_eq_of_lt (by omega)
      rw [h1]
      exact Nat.div_eq_of_lt_le (by omega) (by omega)
    · have h2 : l.length - cs + cs - 1 = l.length - 1 := by omega
      have h3 : l.length + cs - 1 = (l.length - 1) + cs := by omega
      rw [h2, h3, Nat.add_div_right _ h]
  simp only [chunk_list, List.length_drop, hdiv, List.range_succ_eq_map, List.map_cons,
    List.map_map]
  congr 1
  · simp
  · apply List.map_congr_left
    intro k _
    simp only [Function.comp, List.drop_drop]
    congr 2
    simp only [Nat.succ_eq_add_one]
    ring

theorem chunk_list_join {α : Type} (cs : Nat) (h : 0 < cs) :
    ∀ l : List α, (chunk_list l cs).flatten = l := by
  have key : ∀ (n : Nat) (l : List α), l.length ≤ n → (chunk_list l cs).flatten = l := by
    intro n
    induction n with
    | zero =>
      intro l hl
      have hnil : l = [] := by
        cases l with
        | nil => rfl
        | cons a as => simp at hl
      rw [hnil, chunk_list_nil]
      rfl
    | succ n ih =>
      intro l hl
      by_cases hnil : l = []
      · rw [hnil, chunk_list_nil]; rfl
      · rw [chunk_list_cons l cs h hnil]
        have hlen : 1 ≤ l.length := by
          cases l with
          | nil => exact absurd rfl hnil
          | cons a as => simp
        have hrec : (chunk_list (l.drop cs) cs).flatten = l.drop cs := by
          apply ih
          rw [List.length_drop]
          omega
        simp only [List.flatten_cons, hrec]
        exact List.take_append_drop cs l
  intro l
  exact key l.length l le_rfl

theorem chunk_list_mem {α : Type} (cs : Nat) (h : 0 < cs) :
    ∀ (l : List α), ∀ c ∈ chunk_list l cs, c.length ≤ cs ∧ c ≠ [] := by
  have key : ∀ (n : Nat) (l : List α), l.length ≤ n →
      ∀ c ∈ chunk_list l cs, c.length ≤ cs ∧ c ≠ [] := by
    intro n
    induction n with
    | zero =>
      intro l hl c hc
      have hnil : l = [] := by
        cases l with
        | nil => rfl
        | cons a as => simp at hl
      rw [hnil, chunk_list_nil] at hc
      simp at hc
    | succ n ih =>
      intro l hl c hc
      by_cases hnil : l = []
      · rw [hnil, chunk_list_nil] at hc
        simp at hc
      · rw [chunk_list_cons l cs h hnil] at hc
        rcases List.mem_cons.mp hc with hc | hc
        · subst hc
          refine ⟨List.length_take_le _ _, ?_⟩
          cases l with
          | nil => exact absurd rfl hnil
          | cons a as =>
            cases cs with
            | zero => omega
            | succ m => simp [List.take]
        · apply ih (l.drop cs) _ c hc
          have hlen : 1 ≤ l.length := by
            cases l with
            | nil => exact absurd rfl hnil
            | cons a as => simp
          rw [List.length_drop]
          omega
  intro l
  exact key l.length l le_rfl

/-! ### String primitives

Python string comparison (used by `sorted`) is lexicographic on code
points; Python `sub in s` is substring containment.  These are embedded
on `List Char` so that everything evaluates structurally. -/

def charsLe : List Char → List Char → Bool
  | [], _ => true
  | _ :: _, [] => false
  | a :: as, b :: bs => if a = b then charsLe as bs else decide (a < b)

def strLe (a b : String) : Bool :=
  charsLe a.toList b.toList

/-- `sorted` on distinct strings: insertion sort by `strLe` (same
ascending-order contract as Python's `sorted`). -/
def insertSorted (x : String) : List String → List String
  | [] => [x]
  | y :: ys => if strLe x y then x :: y :: ys else y :: insertSorted x ys

def sortStrings (l : List String) : List String :=
  l.foldr insertSorted []

def isPrefixChars : List Char → List Char → Bool
  | [], _ => true
  | _ :: _, [] => false
  | a :: as, b :: bs => a = b && isPrefixChars as bs

/-- Python `needle in hay` (substring containment). -/
def containsSub (needle : List Char) : List Char → Bool
  | [] => needle.isEmpty
  | c :: cs => isPrefixChars needle (c :: cs) || containsSub needle cs

def strIn (sub s : String) : Bool :=
  containsSub sub.toList s.toList

/-- Suffix test used to state the spec's suffix-based extension rule. -/
def isSuffixChars (suf s : List Char) : Bool :=
  isPrefixChars suf.reverse s.reverse

/-! ### Identifier Extractor: `extract_tweet_id_from_url`

The source applies `re.search` with the two patterns
`https?://(?:twitter\.com|x\.com)/\w+/status/(\d+)` and
`https?://(?:twitter\.com|x\.com)/i/status/(\d+)` in order and returns
group 1 of the first match.  `re.search` tries every start position
left to right.  Because `/` is not a word character and nothing follows
`(\d+)`, greedy matching with backtracking is equivalent to: take the
maximal `\w` run (nonempty), then the literal `/status/`, then the
maximal digit run (nonempty).  For `str` patterns the engine's `\w`
and `\d` are Unicode-aware; they are embedded as the exact code-point
range tables above. -/

/-- Code points matched by Python's Unicode-aware `\\w` (exact range
table of the `re` engine's word class, Unicode 14.0: alphanumerics in
the `str.isalnum` sense plus the underscore). -/
def wordCharRanges : List (Nat × Nat) :=
  [(48, 57), (65, 90), (95, 95), (97, 122), (170, 170), (178, 179), (181, 181), (185, 186),
   (188, 190), (192, 214), (216, 246), (248, 705), (710, 721), (736, 740), (748, 748),
   (750, 750), (880, 884), (886, 887), (890, 893), (895, 895), (902, 902), (904, 906),
   (908, 908), (910, 929), (931, 1013), (1015, 1153), (1162, 1327), (1329, 1366), (1369, 1369),
   (1376, 1416), (1488, 1514), (1519, 1522), (1568, 1610), (1632, 1641), (1646, 1647),
   (1649, 1747), (1749, 1749), (1765, 1766), (1774, 1788), (1791, 1791), (1808, 1808),
   (1810, 1839), (1869, 1957), (1969, 1969), (1984, 2026), (2036, 2037), (2042, 2042),
   (2048, 2069), (2074, 2074), (2084, 2084), (2088, 2088), (2112, 2136), (2144, 2154),
   (2160, 2183), (2185, 2190), (2208, 2249), (2308, 2361), (2365, 2365), (2384, 2384),
   (2392, 2401), (2406, 2415), (2417, 2432), (2437, 2444), (2447, 2448), (2451, 2472),
   (2474, 2480), (2482, 2482), (2486, 2489), (2493, 2493), (2510, 2510), (2524, 2525),
   (2527, 2529), (2534, 2545), (2548, 2553), (2556, 2556), (2565, 2570), (2575, 2576),
   (2579, 2600), (2602, 2608), (2610, 2611), (2613, 2614), (2616, 2617), (2649, 2652),
   (2654, 2654), (2662, 2671), (2674, 2676), (2693, 2701), (2703, 2705), (2707, 2728),
   (2730, 2736), (2738, 2739), (2741, 2745), (2749, 2749), (2768, 2768), (2784, 2785),
   (2790, 2799), (2809, 2809), (2821, 2828), (2831, 2832), (2835, 2856), (2858, 2864),
   (2866, 2867), (2869, 2873), (2877, 2877), (2908, 2909), (2911, 2913), (2918, 2927),
   (2929, 2935), (2947, 2947), (2949, 2954), (2958, 2960), (2962, 2965), (2969, 2970),
   (2972, 2972), (2974, 2975), (2979, 2980), (2984, 2986), (2990, 3001), (3024, 3024),
   (3046, 3058), (3077, 3084), (3086, 3088), (3090, 3112), (3114, 3129), (3133, 3133),
   (3160, 3162), (3165, 3165), (3168, 3169), (3174, 3183), (3192, 3198), (3200, 3200),
   (3205, 3212), (3214, 3216), (3218, 3240), (3242, 3251), (3253, 3257), (3261, 3261),
   (3293, 3294), (3296, 3297), (3302, 3311), (3313, 3314), (3332, 3340), (3342, 3344),
   (3346, 3386), (3389, 3389), (3406, 3406), (3412, 3414), (3416, 3425), (3430, 3448),
   (3450, 3455), (3461, 3478), (3482, 3505), (3507, 3515), (3517, 3517), (3520, 3526),
   (3558, 3567), (3585, 3632), (3634, 3635), (3648, 3654), (3664, 3673), (3713, 3714),
   (3716, 3716), (3718, 3722), (3724, 3747), (3749, 3749), (3751, 3760), (3762, 3763),
   (3773, 3773), (3776, 3780), (3782, 3782), (3792, 3801), (3804, 3807), (3840, 3840),
   (3872, 3891), (3904, 3911), (3913, 3948), (3976, 3980), (4096, 4138), (4159, 4169),
   (4176, 4181), (4186, 4189), (4193, 4193), (4197, 4198), (4206, 4208), (4213, 4225),
   (4238, 4238), (4240, 4249), (4256, 4293), (4295, 4295), (4301, 4301), (4304, 4346),
   (4348, 4680), (4682, 4685), (4688, 4694), (4696, 4696), (4698, 4701), (4704, 4744),
   (4746, 4749), (4752, 4784), (4786, 4789), (4792, 4798), (4800, 4800), (4802, 4805),
   (4808, 4822), (4824, 4880), (4882, 4885), (4888, 4954), (4969, 4988), (4992, 5007),
   (5024, 5109), (5112, 5117), (5121, 5740), (5743, 5759), (5761, 5786), (5792, 5866),
   (5870, 5880), (5888, 5905), (5919, 5937), (5952, 5969), (5984, 5996), (5998, 6000),
   (6016, 6067), (6103, 6103), (6108, 6108), (6112, 6121), (6128, 6137), (6160, 6169),
   (6176, 6264), (6272, 6276), (6279, 6312), (6314, 6314), (6320, 6389), (6400, 6430),
   (6470, 6509), (6512, 6516), (6528, 6571), (6576, 6601), (6608, 6618), (6656, 6678),
   (6688, 6740), (6784, 6793), (6800, 6809), (6823, 6823), (6917, 6963), (6981, 6988),
   (6992, 7001), (7043, 7072), (7086, 7141), (7168, 7203), (7232, 7241), (7245, 7293),
   (7296, 7304), (7312, 7354), (7357, 7359), (7401, 7404), (7406, 7411), (7413, 7414),
   (7418, 7418), (7424, 7615), (7680, 7957), (7960, 7965), (7968, 8005), (8008, 8013),
   (8016, 8023), (8025, 8025), (8027, 8027), (8029, 8029), (8031, 8061), (8064, 8116),
   (8118, 8124), (8126, 8126), (8130, 8132), (8134, 8140), (8144, 8147), (8150, 8155),
   (8160, 8172), (8178, 8180), (8182, 8188), (8304, 8305), (8308, 8313), (8319, 8329),
   (8336, 8348), (8450, 8450), (8455, 8455), (8458, 8467), (8469, 8469), (8473, 8477),
   (8484, 8484), (8486, 8486), (8488, 8488), (8490, 8493), (8495, 8505), (8508, 8511),
   (8517, 8521), (8526, 8526), (8528, 8585), (9312, 9371), (9450, 9471), (10102, 10131),
   (11264, 11492), (11499, 11502), (11506, 11507), (11517, 11517), (11520, 11557),
   (11559, 11559), (11565, 11565), (11568, 11623), (11631, 11631), (11648, 11670),
   (11680, 11686), (11688, 11694), (11696, 11702), (11704, 11710), (11712, 11718),
   (11720, 11726), (11728, 11734), (11736, 11742), (11823, 11823), (12293, 12295),
   (12321, 12329), (12337, 12341), (12344, 12348), (12353, 12438), (12445, 12447),
   (12449, 12538), (12540, 12543), (12549, 12591), (12593, 12686), (12690, 12693),
   (12704, 12735), (12784, 12799), (12832, 12841), (12872, 12879), (12881, 12895),
   (12928, 12937), (12977, 12991), (13312, 19903), (19968, 42124), (42192, 42237),
   (42240, 42508), (42512, 42539), (42560, 42606), (42623, 42653), (42656, 42735),
   (42775, 42783), (42786, 42888), (42891, 42954), (42960, 42961), (42963, 42963),
   (42965, 42969), (42994, 43009), (43011, 43013), (43015, 43018), (43020, 43042),
   (43056, 43061), (43072, 43123), (43138, 43187), (43216, 43225), (43250, 43255),
   (43259, 43259), (43261, 43262), (43264, 43301), (43312, 43334), (43360, 43388),
   (43396, 43442), (43471, 43481), (43488, 43492), (43494, 43518), (43520, 43560),
   (43584, 43586), (43588, 43595), (43600, 43609), (43616, 43638), (43642, 43642),
   (43646, 43695), (43697, 43697), (43701, 43702), (43705, 43709), (43712, 43712),
   (43714, 43714), (43739, 43741), (43744, 43754), (43762, 43764), (43777, 43782),
   (43785, 43790), (43793, 43798), (43808, 43814), (43816, 43822), (43824, 43866),
   (43868, 43881), (43888, 44002), (44016, 44025), (44032, 55203), (55216, 55238),
   (55243, 55291), (63744, 64109), (64112, 64217), (64256, 64262), (64275, 64279),
   (64285, 64285), (64287, 64296), (64298, 64310), (64312, 64316), (64318, 64318),
   (64320, 64321), (64323, 64324), (64326, 64433), (64467, 64829), (64848, 64911),
   (64914, 64967), (65008, 65019), (65136, 65140), (65142, 65276), (65296, 65305),
   (65313, 65338), (65345, 65370), (65382, 65470), (65474, 65479), (65482, 65487),
   (65490, 65495), (65498, 65500), (65536, 65547), (65549, 65574), (65576, 65594),
   (65596, 65597), (65599, 65613), (65616, 65629), (65664, 65786), (65799, 65843),
   (65856, 65912), (65930, 65931), (66176, 66204), (66208, 66256), (66273, 66299),
   (66304, 66339), (66349, 66378), (66384, 66421), (66432, 66461), (66464, 66499),
   (66504, 66511), (66513, 66517), (66560, 66717), (66720, 66729), (66736, 66771),
   (66776, 66811), (66816, 66855), (66864, 66915), (66928, 66938), (66940, 66954),
   (66956, 66962), (66964, 66965), (66967, 66977), (66979, 66993), (66995, 67001),
   (67003, 67004), (67072, 67382), (67392, 67413), (67424, 67431), (67456, 67461),
   (67463, 67504), (67506, 67514), (67584, 67589), (67592, 67592), (67594, 67637),
   (67639, 67640), (67644, 67644), (67647, 67669), (67672, 67702), (67705, 67742),
   (67751, 67759), (67808, 67826), (67828, 67829), (67835, 67867), (67872, 67897),
   (67968, 68023), (68028, 68047), (68050, 68096), (68112, 68115), (68117, 68119),
   (68121, 68149), (68160, 68168), (68192, 68222), (68224, 68255), (68288, 68295),
   (68297, 68324), (68331, 68335), (68352, 68405), (68416, 68437), (68440, 68466),
   (68472, 68497), (68521, 68527), (68608, 68680), (68736, 68786), (68800, 68850),
   (68858, 68899), (68912, 68921), (69216, 69246), (69248, 69289), (69296, 69297),
   (69376, 69415), (69424, 69445), (69457, 69460), (69488, 69505), (69552, 69579),
   (69600, 69622), (69635, 69687), (69714, 69743), (69745, 69746), (69749, 69749),
   (69763, 69807), (69840, 69864), (69872, 69881), (69891, 69926), (69942, 69951),
   (69956, 69956), (69959, 69959), (69968, 70002), (70006, 70006), (70019, 70066),
   (70081, 70084), (70096, 70106), (70108, 70108), (70113, 70132), (70144, 70161),
   (70163, 70187), (70272, 70278), (70280, 70280), (70282, 70285), (70287, 70301),
   (70303, 70312), (70320, 70366), (70384, 70393), (70405, 70412), (70415, 70416),
   (70419, 70440), (70442, 70448), (70450, 70451), (70453, 70457), (70461, 70461),
   (70480, 70480), (70493, 70497), (70656, 70708), (70727, 70730), (70736, 70745),
   (70751, 70753), (70784, 70831), (70852, 70853), (70855, 70855), (70864, 70873),
   (71040, 71086), (71128, 71131), (71168, 71215), (71236, 71236), (71248, 71257),
   (71296, 71338), (71352, 71352), (71360, 71369), (71424, 71450), (71472, 71483),
   (71488, 71494), (71680, 71723), (71840, 71922), (71935, 71942), (71945, 71945),
   (71948, 71955), (71957, 71958), (71960, 71983), (71999, 71999), (72001, 72001),
   (72016, 72025), (72096, 72103), (72106, 72144), (72161, 72161), (72163, 72163),
   (72192, 72192), (72203, 72242), (72250, 72250), (72272, 72272), (72284, 72329),
   (72349, 72349), (72368, 72440), (72704, 72712), (72714, 72750), (72768, 72768),
   (72784, 72812), (72818, 72847), (72960, 72966), (72968, 72969), (72971, 73008),
   (73030, 73030), (73040, 73049), (73056, 73061), (73063, 73064), (73066, 73097),
   (73112, 73112), (73120, 73129), (73440, 73458), (73648, 73648), (73664, 73684),
   (73728, 74649), (74752, 74862), (74880, 75075), (77712, 77808), (77824, 78894),
   (82944, 83526), (92160, 92728), (92736, 92766), (92768, 92777), (92784, 92862),
   (92864, 92873), (92880, 92909), (92928, 92975), (92992, 92995), (93008, 93017),
   (93019, 93025), (93027, 93047), (93053, 93071), (93760, 93846), (93952, 94026),
   (94032, 94032), (94099, 94111), (94176, 94177), (94179, 94179), (94208, 100343),
   (100352, 101589), (101632, 101640), (110576, 110579), (110581, 110587), (110589, 110590),
   (110592, 110882), (110928, 110930), (110948, 110951), (110960, 111355), (113664, 113770),
   (113776, 113788), (113792, 113800), (113808, 113817), (119520, 119539), (119648, 119672),
   (119808, 119892), (119894, 119964), (119966, 119967), (119970, 119970), (119973, 119974),
   (119977, 119980), (119982, 119993), (119995, 119995), (119997, 120003), (120005, 120069),
   (120071, 120074), (120077, 120084), (120086, 120092), (120094, 120121), (120123, 120126),
   (120128, 120132), (120134, 120134), (120138, 120144), (120146, 120485), (120488, 120512),
   (120514, 120538), (120540, 120570), (120572, 120596), (120598, 120628), (120630, 120654),
   (120656, 120686), (120688, 120712), (120714, 120744), (120746, 120770), (120772, 120779),
   (120782, 120831), (122624, 122654), (123136, 123180), (123191, 123197), (123200, 123209),
   (123214, 123214), (123536, 123565), (123584, 123627), (123632, 123641), (124896, 124902),
   (124904, 124907), (124909, 124910), (124912, 124926), (124928, 125124), (125127, 125135),
   (125184, 125251), (125259, 125259), (125264, 125273), (126065, 126123), (126125, 126127),
   (126129, 126132), (126209, 126253), (126255, 126269), (126464, 126467), (126469, 126495),
   (126497, 126498), (126500, 126500), (126503, 126503), (126505, 126514), (126516, 126519),
   (126521, 126521), (126523, 126523), (126530, 126530), (126535, 126535), (126537, 126537),
   (126539, 126539), (126541, 126543), (126545, 126546), (126548, 126548), (126551, 126551),
   (126553, 126553), (126555, 126555), (126557, 126557), (126559, 126559), (126561, 126562),
   (126564, 126564), (126567, 126570), (126572, 126578), (126580, 126583), (126585, 126588),
   (126590, 126590), (126592, 126601), (126603, 126619), (126625, 126627), (126629, 126633),
   (126635, 126651), (127232, 127244), (130032, 130041), (131072, 173791), (173824, 177976),
   (177984, 178205), (178208, 183969), (183984, 191456), (194560, 195101), (196608, 201546)]

/-- Code points matched by Python's Unicode-aware `\\d` (exact range
table of the `re` engine's digit class: Unicode decimal digits). -/
def digitCharRanges : List (Nat × Nat) :=
  [(48, 57), (1632, 1641), (1776, 1785), (1984, 1993), (2406, 2415), (2534, 2543), (2662, 2671),
   (2790, 2799), (2918, 2927), (3046, 3055), (3174, 3183), (3302, 3311), (3430, 3439),
   (3558, 3567), (3664, 3673), (3792, 3801), (3872, 3881), (4160, 4169), (4240, 4249),
   (6112, 6121), (6160, 6169), (6470, 6479), (6608, 6617), (6784, 6793), (6800, 6809),
   (6992, 7001), (7088, 7097), (7232, 7241), (7248, 7257), (42528, 42537), (43216, 43225),
   (43264, 43273), (43472, 43481), (43504, 43513), (43600, 43609), (44016, 44025),
   (65296, 65305), (66720, 66729), (68912, 68921), (69734, 69743), (69872, 69881),
   (69942, 69951), (70096, 70105), (70384, 70393), (70736, 70745), (70864, 70873),
   (71248, 71257), (71360, 71369), (71472, 71481), (71904, 71913), (72016, 72025),
   (72784, 72793), (73040, 73049), (73120, 73129), (92768, 92777), (92864, 92873),
   (93008, 93017), (120782, 120831), (123200, 123209), (123632, 123641), (125264, 125273),
   (130032, 130041)]

def isWordChar (c : Char) : Bool :=
  wordCharRanges.any (fun r => r.1 ≤ c.toNat && c.toNat ≤ r.2)

def isDigitChar (c : Char) : Bool :=
  digitCharRanges.any (fun r => r.1 ≤ c.toNat && c.toNat ≤ r.2)

/-- Match a literal at the head of the input, returning the remainder. -/
def dropLiteral : List Char → List Char → Option (List Char)
  | [], cs => some cs
  | _ :: _, [] => none
  | l :: ls, c :: cs => if c = l then dropLiteral ls cs else none

/-- `https?://` (greedy `s?`: try with `s` first). -/
def afterScheme (cs : List Char) : Option (List Char) :=
  match dropLiteral "https://".toList cs with
  | some r => some r
  | none => dropLiteral "http://".toList cs

/-- `(?:twitter\.com|x\.com)/` (alternation tried left to right). -/
def afterHost (cs : List Char) : Option (List Char) :=
  match dropLiteral "twitter.com/".toList cs with
  | some r => some r
  | none => dropLiteral "x.com/".toList cs

/-- `\w+/status/`. -/
def afterUserStatus (cs : List Char) : Option (List Char) :=
  if (cs.takeWhile isWordChar).isEmpty then none
  else dropLiteral "/status/".toList (cs.dropWhile isWordChar)

/-- `(\d+)`: the captured group. -/
def digitsGroup (cs : List Char) : Option (List Char) :=
  if (cs.takeWhile isDigitChar).isEmpty then none
  else some (cs.takeWhile isDigitChar)

/-- Anchored match of pattern 1 at the start of `cs`. -/
def matchAt1 (cs : List Char) : Option (List Char) :=
  ((afterScheme cs).bind afterHost).bind fun r =>
    (afterUserStatus r).bind digitsGroup

/-- Anchored match of pattern 2 (`/i/status/`) at the start of `cs`. -/
def matchAt2 (cs : List Char) : Option (List Char) :=
  ((afterScheme cs).bind afterHost).bind fun r =>
    (dropLiteral "i/status/".toList r).bind digitsGroup

/-- `re.search`: try the anchored match at every start position, left
to right. -/
def searchFrom (m : List Char → Option (List Char)) : List Char → Option (List Char)
  | [] => m []
  | c :: cs =>
    match m (c :: cs) with
    | some r => some r
    | none => searchFrom m cs

def extract_tweet_id_from_url (url : List Char) : Option (List Char) :=
  match searchFrom matchAt1 url with
  | some r => some r
  | none => searchFrom matchAt2 url

/-! ### Lemmas about the extractor -/

theorem dropLiteral_eq_some : ∀ (lit cs r : List Char),
    dropLiteral lit cs = some r ↔ cs = lit ++ r
  | [], cs, r => by simp [dropLiteral, eq_comm]
  | _ :: _, [], _ => by simp [dropLiteral]
  | l :: ls, c :: cs, r => by
    by_cases hc : c = l
    · subst hc
      simp [dropLiteral, dropLiteral_eq_some ls cs r]
    · simp [dropLiteral, hc]

theorem dropLiteral_self (lit r : List Char) : dropLiteral lit (lit ++ r) = some r :=
  (dropLiteral_eq_some lit (lit ++ r) r).mpr rfl

theorem takeWhile_append_all (p : Char → Bool) :
    ∀ (us rest : List Char), (∀ c ∈ us, p c = true) →
      (us ++ rest).takeWhile p = us ++ rest.takeWhile p
  | [], rest, _ => by simp
  | u :: us, rest, h => by
    have hu : p u = true := h u (by simp)
    rw [List.cons_append, List.takeWhile_cons_of_pos hu,
      takeWhile_append_all p us rest (fun c hc => h c (by simp [hc]))]
    rfl

theorem dropWhile_append_all (p : Char → Bool) :
    ∀ (us rest : List Char), (∀ c ∈ us, p c = true) →
      (us ++ rest).dropWhile p = rest.dropWhile p
  | [], _, _ => by simp
  | u :: us, rest, h => by
    have hu : p u = true := h u (by simp)
    rw [List.cons_append, List.dropWhile_cons_of_pos hu,
      dropWhile_append_all p us rest (fun c hc => h c (by simp [hc]))]

theorem takeWhile_middle (p : Char → Bool) (us : List Char) (r0 : Char) (rtl : List Char)
    (hus : ∀ c ∈ us, p c = true) (h0 : p r0 = false) :
    (us ++ r0 :: rtl).takeWhile p = us := by
  rw [takeWhile_append_all p us _ hus, List.takeWhile_cons_of_neg (by simp [h0]),
    List.append_nil]

theorem dropWhile_middle (p : Char → Bool) (us : List Char) (r0 : Char) (rtl : List Char)
    (hus : ∀ c ∈ us, p c = true) (h0 : p r0 = false) :
    (us ++ r0 :: rtl).dropWhile p = r0 :: rtl := by
  rw [dropWhile_append_all p us _ hus, List.dropWhile_cons_of_neg (by simp [h0])]

theorem takeWhile_all (p : Char → Bool) (l : List Char) (h : ∀ c ∈ l, p c = true) :
    l.takeWhile p = l := by
  have := takeWhile_append_all p l [] h
  simpa using this

/-- The scheme part of the regex: `https://` or `http://`. -/
def schemeChars (secure : Bool) : List Char :=
  if secure then "https://".toList else "http://".toList

/-- The host part of the regex (with its trailing slash). -/
def hostChars (xhost : Bool) : List Char :=
  if xhost then "x.com/".toList else "twitter.com/".toList

/-- A string matches (an occurrence of) the supported status-URL shape:
scheme, one of the two hosts, a nonempty word-character path segment
(which covers both `/<user>/` and `/i/`), the literal `/status/`, and a
nonempty digit run. -/
def IsStatusMatch (t : List Char) : Prop :=
  ∃ (secure xhost : Bool) (user ds rest : List Char),
    user ≠ [] ∧ (∀ c ∈ user, isWordChar c = true) ∧
    ds ≠ [] ∧ (∀ c ∈ ds, isDigitChar c = true) ∧
    t = schemeChars secure ++ hostChars xhost ++ user ++ "/status/".toList ++ ds ++ rest

theorem afterScheme_build (secure : Bool) (r : List Char) :
    afterScheme (schemeChars secure ++ r) = some r := by
  cases secure with
  | true =>
    show afterScheme ("https://".toList ++ r) = some r
    unfold afterScheme
    rw [dropLiteral_self]
  | false =>
    show afterScheme ("http://".toList ++ r) = some r
    unfold afterScheme
    rw [show dropLiteral "https://".toList ("http://".toList ++ r) = none from rfl]
    exact dropLiteral_self _ _

theorem afterHost_build (xhost : Bool) (r : List Char) :
    afterHost (hostChars xhost ++ r) = some r := by
  cases xhost with
  | true =>
    show afterHost ("x.com/".toList ++ r) = some r
    unfold afterHost
    rw [show dropLiteral "twitter.com/".toList ("x.com/".toList ++ r) = none from rfl]
    exact dropLiteral_self _ _
  | false =>
    show afterHost ("twitter.com/".toList ++ r) = some r
    unfold afterHost
    rw [dropLiteral_self]

theorem matchAt1_build (secure xhost : Bool) (user id rest : List Char)
    (hu : user ≠ []) (huw : ∀ c ∈ user, isWordChar c = true)
    (hid : id ≠ []) (hidd : ∀ c ∈ id, isDigitChar c = true)
    (hrest : ∀ c, rest.head? = some c → isDigitChar c = false) :
    matchAt1 (schemeChars secure ++ hostChars xhost ++ user ++
      "/status/".toList ++ id ++ rest) = some id := by
  have htk : (user ++ ("/status/".toList ++ (id ++ rest))).takeWhile isWordChar = user := by
    have : "/status/".toList ++ (id ++ rest) = '/' :: ("status/".toList ++ (id ++ rest)) := rfl
    rw [this]
    exact takeWhile_middle isWordChar user '/' _ huw (by decide)
  have hdw : (user ++ ("/status/".toList ++ (id ++ rest))).dropWhile isWordChar =
      "/status/".toList ++ (id ++ rest) := by
    have : "/status/".toList ++ (id ++ rest) = '/' :: ("status/".toList ++ (id ++ rest)) := rfl
    rw [this]
    exact dropWhile_middle isWordChar user '/' _ huw (by decide)
  have hus : afterUserStatus (user ++ ("/status/".toList ++ (id ++ rest))) =
      some (id ++ rest) := by
    rw [afterUserStatus, htk, hdw]
    have : user.isEmpty = false := by
      cases user with
      | nil => exact absurd rfl hu
      | cons a as => rfl
    rw [this]
    exact dropLiteral_self _ _
  have hdig : digitsGroup (id ++ rest) = some id := by
    have htkd : (id ++ rest).takeWhile isDigitChar = id := by
      cases rest with
      | nil =>
        rw [List.append_nil]
        exact takeWhile_all isDigitChar id hidd
      | cons r0 rtl =>
        exact takeWhile_middle isDigitChar id r0 rtl hidd (hrest r0 rfl)
    have hne : id.isEmpty = false := by
      cases id with
      | nil => exact absurd rfl hid
      | cons a as => rfl
    rw [digitsGroup, htkd, hne]
    simp
  unfold matchAt1
  simp only [List.append_assoc]
  rw [afterScheme_build, Option.some_bind, afterHost_build, Option.some_bind, hus,
    Option.some_bind]
  exact hdig

theorem searchFrom_of_hit (m : List Char → Option (List Char)) (s r : List Char)
    (h : m s = some r) : searchFrom m s = some r := by
  cases s with
  | nil => simpa [searchFrom] using h
  | cons c cs => simp [searchFrom, h]

theorem searchFrom_some_imp (m : List Char → Option (List Char)) :
    ∀ (s r : List Char), searchFrom m s = some r → ∃ t, t <:+ s ∧ m t = some r
  | [], r, h => ⟨[], List.nil_suffix, by simpa [searchFrom] using h⟩
  | c :: cs, r, h => by
    rw [searchFrom] at h
    cases hm : m (c :: cs) with
    | some r2 =>
      rw [hm] at h
      have hr : r2 = r := by simpa using h
      exact ⟨c :: cs, List.suffix_refl _, by rw [hm, hr]⟩
    | none =>
      rw [hm] at h
      simp only [] at h
      obtain ⟨t, hsuf, hmt⟩ := searchFrom_some_imp m cs r h
      exact ⟨t, hsuf.trans (List.suffix_cons c cs), hmt⟩

theorem afterScheme_some_imp (t r : List Char) (h : afterScheme t = some r) :
    ∃ secure : Bool, t = schemeChars secure ++ r := by
  rw [afterScheme] at h
  cases h1 : dropLiteral "https://".toList t with
  | some r2 =>
    rw [h1] at h
    exact ⟨true, by rw [(dropLiteral_eq_some _ t r2).mp h1]; cases h; rfl⟩
  | none =>
    rw [h1] at h
    exact ⟨false, (dropLiteral_eq_some _ t r).mp h⟩

theorem afterHost_some_imp (t r : List Char) (h : afterHost t = some r) :
    ∃ xhost : Bool, t = hostChars xhost ++ r := by
  rw [afterHost] at h
  cases h1 : dropLiteral "twitter.com/".toList t with
  | some r2 =>
    rw [h1] at h
    exact ⟨false, by rw [(dropLiteral_eq_some _ t r2).mp h1]; cases h; rfl⟩
  | none =>
    rw [h1] at h
    exact ⟨true, (dropLiteral_eq_some _ t r).mp h⟩

theorem digitsGroup_some_imp (t ds : List Char) (h : digitsGroup t = some ds) :
    ds ≠ [] ∧ (∀ c ∈ ds, isDigitChar c = true) ∧ t = ds ++ t.dropWhile isDigitChar := by
  rw [digitsGroup] at h
  by_cases he : (t.takeWhile isDigitChar).isEmpty
  · rw [if_pos he] at h
    exact absurd h (by simp)
  · rw [if_neg he] at h
    have hds : ds = t.takeWhile isDigitChar := by
      cases h
      rfl
    subst hds
    refine ⟨by simpa [List.isEmpty_iff] using he, ?_, ?_⟩
    · intro c hc
      exact List.mem_takeWhile_imp hc
    · exact (List.takeWhile_append_dropWhile _ _).symm

theorem matchAt1_some_imp (t ds : List Char) (h : matchAt1 t = some ds) :
    IsStatusMatch t := by
  rw [matchAt1] at h
  cases h1 : afterScheme t with
  | none => rw [h1] at h; exact absurd h (by simp)
  | some r1 =>
    rw [h1] at h
    simp only [Option.some_bind] at h
    cases h2 : afterHost r1 with
    | none => rw [h2] at h; exact absurd h (by simp)
    | some r2 =>
      rw [h2] at h
      simp only [Option.some_bind] at h
      cases h3 : afterUserStatus r2 with
      | none => rw [h3] at h; exact absurd h (by simp)
      | some r3 =>
        rw [h3] at h
        simp only [Option.some_bind] at h
        obtain ⟨secure, hts⟩ := afterScheme_some_imp t r1 h1
        obtain ⟨xhost, hth⟩ := afterHost_some_imp r1 r2 h2
        rw [afterUserStatus] at h3
        by_cases he : (r2.takeWhile isWordChar).isEmpty
        · rw [if_pos he] at h3
          exact absurd h3 (by simp)
        · rw [if_neg he] at h3
          have hr2 : r2.dropWhile isWordChar = "/status/".toList ++ r3 :=
            (dropLiteral_eq_some _ _ _).mp h3
          obtain ⟨hds1, hds2, hds3⟩ := digitsGroup_some_imp r3 ds h
          obtain ⟨u, hu⟩ : ∃ u, r2.takeWhile isWordChar = u := ⟨_, rfl⟩
          obtain ⟨rest0, hrest0⟩ : ∃ x, r3.dropWhile isDigitChar = x := ⟨_, rfl⟩
          rw [hrest0] at hds3
          have hsplit : r2 = u ++ ("/status/".toList ++ r3) := by
            rw [← hu, ← hr2]
            exact (List.takeWhile_append_dropWhile _ _).symm
          refine ⟨secure, xhost, u, ds, rest0, ?_, ?_, hds1, hds2, ?_⟩
          · rw [← hu]
            simpa [List.isEmpty_iff] using he
          · intro c hc
            rw [← hu] at hc
            exact List.mem_takeWhile_imp hc
          · rw [hts, hth, hsplit, hds3]
            simp [List.append_assoc]

theorem matchAt2_some_imp (t ds : List Char) (h : matchAt2 t = some ds) :
    IsStatusMatch t := by
  rw [matchAt2] at h
  cases h1 : afterScheme t with
  | none => rw [h1] at h; exact absurd h (by simp)
  | some r1 =>
    rw [h1] at h
    simp only [Option.some_bind] at h
    cases h2 : afterHost r1 with
    | none => rw [h2] at h; exact absurd h (by simp)
    | some r2 =>
      rw [h2] at h
      simp only [Option.some_bind] at h
      cases h3 : dropLiteral "i/status/".toList r2 with
      | none => rw [h3] at h; exact absurd h (by simp)
      | some r3 =>
        rw [h3] at h
        simp only [Option.some_bind] at h
        obtain ⟨secure, hts⟩ := afterScheme_some_imp t r1 h1
        obtain ⟨xhost, hth⟩ := afterHost_some_imp r1 r2 h2
        have hr2 : r2 = "i/status/".toList ++ r3 := (dropLiteral_eq_some _ _ _).mp h3
        obtain ⟨hds1, hds2, hds3⟩ := digitsGroup_some_imp r3 ds h
        obtain ⟨rest0, hrest0⟩ : ∃ x, r3.dropWhile isDigitChar = x := ⟨_, rfl⟩
        rw [hrest0] at hds3
        refine ⟨secure, xhost, ['i'], ds, rest0,
          by simp, by intro c hc; simp at hc; rw [hc]; decide, hds1, hds2, ?_⟩
        rw [hts, hth, hr2, hds3,
          show "i/status/".toList = ['i'] ++ "/status/".toList from rfl]
        simp [List.append_assoc]

/-! ### Claim theorems C4 and C5 -/

/-- C4: for every list and every chunk size > 0 the Chunker (a pure,
hence deterministic, function) produces chunks each of length at most
the chunk size, none of them empty (so no chunk is empty unless the
input is empty, in which case there are no chunks at all), whose
concatenation in order reproduces the input exactly; and a 250-element
list with chunk size 100 yields chunks of lengths [100, 100, 50]. -/
theorem chunker_correct :
    (∀ (α : Type) (l : List α) (cs : Nat), 0 < cs →
        (chunk_list l cs).flatten = l ∧ ∀ c ∈ chunk_list l cs, c.length ≤ cs ∧ c ≠ []) ∧
    (chunk_list (List.range 250) 100).map List.length = [100, 100, 50] := by
  constructor
  · intro α l cs h
    exact ⟨chunk_list_join cs h l, chunk_list_mem cs h l⟩
  · rfl

/-- Witness for C4 at a concrete list and chunk size. -/
theorem chunker_correct_witness :
    (chunk_list [0, 1, 2, 3, 4] 2).flatten = [0, 1, 2, 3, 4] ∧
      ∀ c ∈ chunk_list [0, 1, 2, 3, 4] 2, c.length ≤ 2 ∧ c ≠ [] :=
  chunker_correct.1 Nat [0, 1, 2, 3, 4] 2 (by decide)

/-- C5: every string that is a supported status URL — scheme `http` or
`https`, host `twitter.com` or `x.com`, a word-character path segment
(covering both `/<user>/` and `/i/` shapes), the literal `/status/`,
then a nonempty digit run (not immediately followed by more digits) —
is mapped by the Extractor to exactly that digit sequence; and every
string no suffix of which matches the supported pattern shape is mapped
to none. -/
theorem extractor_correct :
    (∀ (secure xhost : Bool) (user id rest : List Char),
        user ≠ [] → (∀ c ∈ user, isWordChar c = true) →
        id ≠ [] → (∀ c ∈ id, isDigitChar c = true) →
        (∀ c, rest.head? = some c → isDigitChar c = false) →
        extract_tweet_id_from_url (schemeChars secure ++ hostChars xhost ++ user ++
          "/status/".toList ++ id ++ rest) = some id) ∧
    (∀ s : List Char, (∀ t, t <:+ s → ¬IsStatusMatch t) →
        extract_tweet_id_from_url s = none) := by
  constructor
  · intro secure xhost user id rest hu huw hid hidd hrest
    have hm := matchAt1_build secure xhost user id rest hu huw hid hidd hrest
    have hs := searchFrom_of_hit matchAt1 _ id hm
    unfold extract_tweet_id_from_url
    rw [hs]
  · intro s hnone
    have h1 : searchFrom matchAt1 s = none := by
      cases heq : searchFrom matchAt1 s with
      | none => rfl
      | some r =>
        obtain ⟨t, hsuf, hmt⟩ := searchFrom_some_imp matchAt1 s r heq
        exact absurd (matchAt1_some_imp t r hmt) (hnone t hsuf)
    have h2 : searchFrom matchAt2 s = none := by
      cases heq : searchFrom matchAt2 s with
      | none => rfl
      | some r =>
        obtain ⟨t, hsuf, hmt⟩ := searchFrom_some_imp matchAt2 s r heq
        exact absurd (matchAt2_some_imp t r hmt) (hnone t hsuf)
    unfold extract_tweet_id_from_url
    rw [h1]
    exact h2

/-- Witness for C5: one matching URL (of the `/i/status/` shape) and
one non-matching string. -/
theorem extractor_correct_witness :
    extract_tweet_id_from_url "https://x.com/i/status/123".toList = some "123".toList ∧
      extract_tweet_id_from_url "hello".toList = none := by
  constructor
  · exact extractor_correct.1 true true "i".toList "123".toList [] (by decide) (by decide)
      (by decide) (by decide) (fun c hc => by simp at hc)
  · apply extractor_correct.2
    intro t hsuf hmatch
    obtain ⟨sec, xh, user, ds, rest, hune, _, hdne, _, heq⟩ := hmatch
    have hlen5 : t.length ≤ 5 := by
      have h5 : "hello".toList.length = 5 := by decide
      have := List.IsSuffix.length_le hsuf
      omega
    have hlen23 : 23 ≤ t.length := by
      rw [heq]
      have h1 : 7 ≤ (schemeChars sec).length := by cases sec <;> decide
      have h2 : 6 ≤ (hostChars xh).length := by cases xh <;> decide
      have h3 : 1 ≤ user.length := by
        cases user with
        | nil => exact absurd rfl hune
        | cons a as => simp
      have h4 : 1 ≤ ds.length := by
        cases ds with
        | nil => exact absurd rfl hdne
        | cons a as => simp
      have h5 : "/status/".toList.length = 8 := by decide
      simp only [List.length_append]
      omega
    omega

/-! ### Deduplicating Collector: `extract_tweet_ids_from_csv`

A CSV row as produced by `csv.DictReader` is a dictionary from column
names to cell values, modelled as an association list;
`row.get(target_column, "")` is `rowGet`.  The Python function returns
a `set`, modelled as a `Finset String`.  Note that the source contains
no error path for an absent column: `row.get` simply yields the default
`""` and the row is skipped. -/

def rowGet (row : List (String × String)) (col : String) : String :=
  (row.lookup col).getD ""

/-- One iteration of the `for row in reader` loop body. -/
def csvStep (target_column : String) (tweet_ids : Finset String)
    (row : List (String × String)) : Finset String :=
  let url := rowGet row target_column
  if url ≠ "" then
    match extract_tweet_id_from_url url.toList with
    | some tid => insert (String.mk tid) tweet_ids
    | none => tweet_ids
  else tweet_ids

def extract_tweet_ids_from_csv (rows : List (List (String × String)))
    (target_column : String) : Finset String :=
  rows.foldl (csvStep target_column) ∅

theorem csvStep_skip (col : String) (s : Finset String) (row : List (String × String))
    (h : rowGet row col = "" ∨ extract_tweet_id_from_url (rowGet row col).toList = none) :
    csvStep col s row = s := by
  rcases h with h | h
  · simp [csvStep, h]
  · by_cases hne : rowGet row col = ""
    · simp [csvStep, hne]
    · have h2 : extract_tweet_id_from_url (rowGet row col).data = none := h
      simp [csvStep, hne, h2]

/-! ### Media extension: `get_media_extension`

The source decides the photo extension by Python substring containment
(`".jpg" in url`), not by looking at the URL suffix. -/

def get_media_extension (media_type : String) (url : String) : String :=
  if media_type = "photo" then
    if strIn ".jpg" url || strIn ".jpeg" url then ".jpg"
    else if strIn ".png" url then ".png"
    else if strIn ".webp" url then ".webp"
    else ".jpg"
  else if media_type = "video" then ".mp4"
  else if media_type = "animated_gif" then ".gif"
  else ".bin"

/-- Modelled from the spec: the photo rule as the spec words it —
"extension derived by inspecting the URL suffix among
{.jpg, .jpeg→.jpg, .png, .webp}, defaulting to .jpg if none
recognized".  Used only to exhibit where the code diverges from this
wording. -/
def spec_photo_extension (url : String) : String :=
  if isSuffixChars ".jpg".toList url.toList || isSuffixChars ".jpeg".toList url.toList then
    ".jpg"
  else if isSuffixChars ".png".toList url.toList then ".png"
  else if isSuffixChars ".webp".toList url.toList then ".webp"
  else ".jpg"

theorem isPrefixChars_iff : ∀ (p l : List Char), isPrefixChars p l = true ↔ ∃ r, l = p ++ r
  | [], l => by simp [isPrefixChars]
  | _ :: _, [] => by simp [isPrefixChars]
  | a :: as, b :: bs => by
    simp only [isPrefixChars, Bool.and_eq_true, decide_eq_true_eq,
      isPrefixChars_iff as bs]
    constructor
    · rintro ⟨rfl, r, rfl⟩
      exact ⟨r, rfl⟩
    · rintro ⟨r, hr⟩
      injection hr with h1 h2
      subst h1
      subst h2
      exact ⟨rfl, r, rfl⟩

theorem containsSub_iff : ∀ (n h : List Char),
    containsSub n h = true ↔ ∃ pre post, h = pre ++ n ++ post
  | n, [] => by
    simp only [containsSub, List.isEmpty_iff]
    constructor
    · rintro rfl
      exact ⟨[], [], rfl⟩
    · rintro ⟨pre, post, hp⟩
      have hp2 := hp.symm
      simp only [List.append_eq_nil] at hp2
      exact hp2.1.2
  | n, c :: cs => by
    simp only [containsSub, Bool.or_eq_true, isPrefixChars_iff, containsSub_iff n cs]
    constructor
    · rintro (⟨r, hr⟩ | ⟨pre, post, hp⟩)
      · exact ⟨[], r, by simpa using hr⟩
      · exact ⟨c :: pre, post, by simp [hp]⟩
    · rintro ⟨pre, post, hp⟩
      cases pre with
      | nil => exact Or.inl ⟨post, by simpa using hp⟩
      | cons p ps =>
        injection hp with h1 h2
        exact Or.inr ⟨ps, post, h2⟩

theorem containsSub_of_suffix (suf s : List Char) (h : isSuffixChars suf s = true) :
    containsSub suf s = true := by
  unfold isSuffixChars at h
  obtain ⟨r, hr⟩ := (isPrefixChars_iff _ _).mp h
  have hs : s = r.reverse ++ suf := by
    have h2 := congrArg List.reverse hr
    simpa using h2
  rw [containsSub_iff]
  exact ⟨r.reverse, [], by simp [hs]⟩

theorem strIn_of_suffix (sub s : String) (h : isSuffixChars sub.toList s.toList = true) :
    strIn sub s = true :=
  containsSub_of_suffix sub.toList s.toList h

/-! ### Claim theorems C3 and C8 -/

/-- C3 counterexample: with the designated column entirely absent from
the rows (the header has only an unrelated column), the Collector
returns the empty set normally — the source has no `SchemaError` path
at all — while rows whose cell is present are processed as usual. -/
theorem collector_no_schema_error :
    extract_tweet_ids_from_csv [[("URL", "https://x.com/u/status/99")]] "検証対象URL" = ∅ ∧
      extract_tweet_ids_from_csv
        [[("検証対象URL", "https://x.com/u/status/99")], [("検証対象URL", "")]]
        "検証対象URL" = {"99"} := by
  constructor <;> decide

/-- C3 (amended): rows whose designated cell is missing, empty, or a
non-matching URL are silently skipped, and a run consisting only of
such rows — in particular one whose header lacks the column entirely —
yields the empty set with no error: the code never raises a
SchemaError. -/
theorem collector_skips_silently :
    (∀ (rows : List (List (String × String))) (col : String),
        (∀ row ∈ rows, rowGet row col = "" ∨
            extract_tweet_id_from_url (rowGet row col).toList = none) →
        extract_tweet_ids_from_csv rows col = ∅) ∧
    (∀ (rows : List (List (String × String))) (col : String)
        (row : List (String × String)),
        (rowGet row col = "" ∨ extract_tweet_id_from_url (rowGet row col).toList = none) →
        extract_tweet_ids_from_csv (rows ++ [row]) col =
          extract_tweet_ids_from_csv rows col) := by
  constructor
  · intro rows col hall
    have key : ∀ rs : List (List (String × String)),
        (∀ row ∈ rs, rowGet row col = "" ∨
            extract_tweet_id_from_url (rowGet row col).toList = none) →
        ∀ s : Finset String, rs.foldl (csvStep col) s = s := by
      intro rs
      induction rs with
      | nil => intro _ s; rfl
      | cons r rs ih =>
        intro hall2 s
        rw [List.foldl_cons, csvStep_skip col s r (hall2 r (by simp))]
        exact ih (fun row hrow => hall2 row (by simp [hrow])) s
    exact key rows hall ∅
  · intro rows col row h
    rw [extract_tweet_ids_from_csv, extract_tweet_ids_from_csv, List.foldl_append,
      List.foldl_cons, List.foldl_nil]
    exact csvStep_skip col _ row h

/-- Witness for C3 (amended): a run of skipped rows (empty cell,
non-matching URL, absent column) yields the empty set. -/
theorem collector_skips_silently_witness :
    extract_tweet_ids_from_csv
        [[("検証対象URL", "")], [("検証対象URL", "not a url")], [("other", "x")]]
        "検証対象URL" = ∅ :=
  collector_skips_silently.1 _ "検証対象URL" (by decide)

/-- C8 counterexample: for a URL whose suffix is `.png` but which also
contains `.jpg` earlier, the code picks `.jpg` (substring containment
in priority order) while the spec's suffix-inspection rule picks
`.png`. -/
theorem media_extension_counterexample :
    get_media_extension "photo" "https://example.com/img.jpg.png" = ".jpg" ∧
      spec_photo_extension "https://example.com/img.jpg.png" = ".png" := by
  constructor <;> decide

/-- C8 (amended): the photo extension is chosen by substring
containment checked in priority order (`.jpg`/`.jpeg` first, then
`.png`, then `.webp`), defaulting to `.jpg`; this agrees with suffix
inspection whenever the recognized suffix's marker is the only marker
occurring in the URL. -/
theorem media_extension_substring :
    ∀ url : String,
      (isSuffixChars ".jpg".toList url.toList = true →
          get_media_extension "photo" url = ".jpg") ∧
      (isSuffixChars ".jpeg".toList url.toList = true →
          get_media_extension "photo" url = ".jpg") ∧
      (isSuffixChars ".png".toList url.toList = true → strIn ".jpg" url = false →
          strIn ".jpeg" url = false → get_media_extension "photo" url = ".png") ∧
      (isSuffixChars ".webp".toList url.toList = true → strIn ".jpg" url = false →
          strIn ".jpeg" url = false → strIn ".png" url = false →
          get_media_extension "photo" url = ".webp") ∧
      (strIn ".jpg" url = false → strIn ".jpeg" url = false → strIn ".png" url = false →
          strIn ".webp" url = false → get_media_extension "photo" url = ".jpg") := by
  intro url
  refine ⟨?_, ?_, ?_, ?_, ?_⟩
  · intro h
    have h1 : strIn ".jpg" url = true := strIn_of_suffix _ _ h
    simp [get_media_extension, h1]
  · intro h
    have h1 : strIn ".jpeg" url = true := strIn_of_suffix _ _ h
    simp [get_media_extension, h1]
  · intro h hj hjj
    have h1 : strIn ".png" url = true := strIn_of_suffix _ _ h
    simp [get_media_extension, h1, hj, hjj]
  · intro h hj hjj hp
    have h1 : strIn ".webp" url = true := strIn_of_suffix _ _ h
    simp [get_media_extension, h1, hj, hjj, hp]
  · intro hj hjj hp hw
    simp [get_media_extension, hj, hjj, hp, hw]

/-- Witness for C8 (amended) at a concrete `.webp` URL. -/
theorem media_extension_substring_witness :
    get_media_extension "photo" "https://pbs.twimg.com/media/pic.webp" = ".webp" :=
  (media_extension_substring "https://pbs.twimg.com/media/pic.webp").2.2.2.1 (by decide)
    (by decide) (by decide) (by decide)

/-! ### Batch Fetcher: `get_posts_from_x_api` and `fetch_all_tweets`

The HTTP transport is an external collaborator; each batch's outcome is
supplied by an oracle indexed by the 1-based batch number (the loop is
`for i, chunk in enumerate(chunks, 1)`).  `requests` raises
`RequestException` on transport errors, on non-2xx statuses (via
`raise_for_status`) and on JSON decode errors; `get_posts_from_x_api`
catches exactly that class and returns `{}`.  Sleeping (`time.sleep`)
and the API calls are recorded in an event trace. -/

/-- Minimal JSON value model for API response bodies. -/
inductive ApiJson where
  | str (s : String)
  | num (n : Int)
  | arr (elems : List ApiJson)
  | obj (fields : List (String × ApiJson))

/-- A top-level response dictionary (`response.json()` of the X API). -/
def RespDict : Type := List (String × ApiJson)

/-- Outcome of one HTTP GET in `get_posts_from_x_api`. -/
inductive TransportOutcome where
  | success (body : List (String × ApiJson))
  | requestError

def get_posts_from_x_api (outcome : TransportOutcome) : List (String × ApiJson) :=
  match outcome with
  | .success body => body
  | .requestError => []

/-- The `if tweets_data and "data" in tweets_data` check: the dict is
truthy (nonempty) and has a top-level `data` key. -/
def batchOk (d : List (String × ApiJson)) : Bool :=
  !d.isEmpty && (d.lookup "data").isSome

inductive FetchEvent where
  | fetch (i : Nat) (ids : List String)
  | sleep (secs : Nat)
deriving DecidableEq

structure FetchRun where
  results : List (List (String × ApiJson))
  failures : List (Nat × List String)
  trace : List FetchEvent

/-- Body of one iteration of the batch loop. -/
def fetchStep (oracle : Nat → TransportOutcome) (n : Nat) (is_free_plan : Bool)
    (i : Nat) (chunk : List String) (st : FetchRun) : FetchRun :=
  let st1 : FetchRun := { st with trace := st.trace ++ [FetchEvent.fetch i chunk] }
  let tweets_data := get_posts_from_x_api (oracle i)
  let st2 : FetchRun :=
    if batchOk tweets_data then { st1 with results := st1.results ++ [tweets_data] }
    else { st1 with failures := st1.failures ++ [(i, chunk)] }
  if i < n then
    if is_free_plan then { st2 with trace := st2.trace ++ [FetchEvent.sleep 900] }
    else if n > 15 then { st2 with trace := st2.trace ++ [FetchEvent.sleep 60] }
    else st2
  else st2

def fetchLoop (oracle : Nat → TransportOutcome) (n : Nat) (is_free_plan : Bool) :
    Nat → List (List String) → FetchRun → FetchRun
  | _, [], st => st
  | i, chunk :: rest, st =>
    fetchLoop oracle n is_free_plan (i + 1) rest
      (fetchStep oracle n is_free_plan i chunk st)

def fetch_all_tweets (oracle : Nat → TransportOutcome) (tweet_ids : List String)
    (is_free_plan : Bool) : FetchRun :=
  let sorted_tweet_ids := sortStrings tweet_ids
  let chunks := chunk_list sorted_tweet_ids 100
  fetchLoop oracle chunks.length is_free_plan 1 chunks ⟨[], [], []⟩

/-- The chunk list paired with its 1-based batch numbers. -/
def indexedFrom : Nat → List (List String) → List (Nat × List String)
  | _, [] => []
  | i, c :: cs => (i, c) :: indexedFrom (i + 1) cs

/-- What one batch contributes to the results sequence. -/
def resultOf (oracle : Nat → TransportOutcome) (i : Nat) :
    Option (List (String × ApiJson)) :=
  let d := get_posts_from_x_api (oracle i)
  if batchOk d then some d else none

/-- The sleep events the loop emits right after batch `i` of `n`. -/
def sleepEvents (is_free_plan : Bool) (n i : Nat) : List FetchEvent :=
  if i < n then
    if is_free_plan then [FetchEvent.sleep 900]
    else if n > 15 then [FetchEvent.sleep 60]
    else []
  else []

/-- Closed form of the event trace of a run over the given chunks. -/
def expectedTrace (is_free_plan : Bool) (n : Nat) : Nat → List (List String) → List FetchEvent
  | _, [] => []
  | i, c :: cs =>
    FetchEvent.fetch i c :: (sleepEvents is_free_plan n i ++
      expectedTrace is_free_plan n (i + 1) cs)

theorem fetchStep_results (oracle : Nat → TransportOutcome) (n : Nat) (free : Bool)
    (i : Nat) (chunk : List String) (st : FetchRun) :
    (fetchStep oracle n free i chunk st).results =
      st.results ++ (resultOf oracle i).toList := by
  unfold fetchStep resultOf
  split_ifs <;> simp_all [apply_ite]

theorem fetchStep_failures (oracle : Nat → TransportOutcome) (n : Nat) (free : Bool)
    (i : Nat) (chunk : List String) (st : FetchRun) :
    (fetchStep oracle n free i chunk st).failures =
      st.failures ++ (if batchOk (get_posts_from_x_api (oracle i)) then []
        else [(i, chunk)]) := by
  unfold fetchStep
  split_ifs <;> simp_all [apply_ite]

theorem fetchStep_trace (oracle : Nat → TransportOutcome) (n : Nat) (free : Bool)
    (i : Nat) (chunk : List String) (st : FetchRun) :
    (fetchStep oracle n free i chunk st).trace =
      st.trace ++ [FetchEvent.fetch i chunk] ++ sleepEvents free n i := by
  unfold fetchStep sleepEvents
  split_ifs <;> simp_all [apply_ite]

theorem fetchLoop_results (oracle : Nat → TransportOutcome) (n : Nat) (free : Bool) :
    ∀ (cs : List (List String)) (i : Nat) (st : FetchRun),
      (fetchLoop oracle n free i cs st).results =
        st.results ++ (indexedFrom i cs).filterMap (fun p => resultOf oracle p.1)
  | [], i, st => by simp [fetchLoop, indexedFrom]
  | c :: cs, i, st => by
    simp only [fetchLoop]
    rw [fetchLoop_results oracle n free cs (i + 1) (fetchStep oracle n free i c st),
      fetchStep_results, indexedFrom]
    cases hro : resultOf oracle i with
    | none => simp [hro]
    | some d => simp [hro]

theorem fetchLoop_failures (oracle : Nat → TransportOutcome) (n : Nat) (free : Bool) :
    ∀ (cs : List (List String)) (i : Nat) (st : FetchRun),
      (fetchLoop oracle n free i cs st).failures =
        st.failures ++ (indexedFrom i cs).filter
          (fun p => !batchOk (get_posts_from_x_api (oracle p.1)))
  | [], i, st => by simp [fetchLoop, indexedFrom]
  | c :: cs, i, st => by
    simp only [fetchLoop]
    rw [fetchLoop_failures oracle n free cs (i + 1) (fetchStep oracle n free i c st),
      fetchStep_failures, indexedFrom]
    cases hok : batchOk (get_posts_from_x_api (oracle i)) with
    | true => simp [List.filter_cons, hok]
    | false => simp [List.filter_cons, hok]

theorem fetchLoop_trace (oracle : Nat → TransportOutcome) (n : Nat) (free : Bool) :
    ∀ (cs : List (List String)) (i : Nat) (st : FetchRun),
      (fetchLoop oracle n free i cs st).trace =
        st.trace ++ expectedTrace free n i cs
  | [], i, st => by simp [fetchLoop, expectedTrace]
  | c :: cs, i, st => by
    simp only [fetchLoop]
    rw [fetchLoop_trace oracle n free cs (i + 1) (fetchStep oracle n free i c st),
      fetchStep_trace]
    simp [expectedTrace, List.append_assoc]

theorem fetch_all_results (oracle : Nat → TransportOutcome) (ids : List String)
    (free : Bool) :
    (fetch_all_tweets oracle ids free).results =
      (indexedFrom 1 (chunk_list (sortStrings ids) 100)).filterMap
        (fun p => resultOf oracle p.1) := by
  unfold fetch_all_tweets
  rw [fetchLoop_results]
  rfl

theorem fetch_all_failures (oracle : Nat → TransportOutcome) (ids : List String)
    (free : Bool) :
    (fetch_all_tweets oracle ids free).failures =
      (indexedFrom 1 (chunk_list (sortStrings ids) 100)).filter
        (fun p => !batchOk (get_posts_from_x_api (oracle p.1))) := by
  unfold fetch_all_tweets
  rw [fetchLoop_failures]
  rfl

theorem fetch_all_trace (oracle : Nat → TransportOutcome) (ids : List String)
    (free : Bool) :
    (fetch_all_tweets oracle ids free).trace =
      expectedTrace free (chunk_list (sortStrings ids) 100).length 1
        (chunk_list (sortStrings ids) 100) := by
  unfold fetch_all_tweets
  rw [fetchLoop_trace]
  rfl

/-- The fetch events contained in a closed-form trace are exactly the
indexed batches, in order. -/
theorem expectedTrace_fetches (free : Bool) (n : Nat) :
    ∀ (cs : List (List String)) (i : Nat),
      (expectedTrace free n i cs).filterMap
        (fun e => match e with
          | FetchEvent.fetch j c => some (j, c)
          | FetchEvent.sleep _ => none) = indexedFrom i cs
  | [], i => by simp [expectedTrace, indexedFrom]
  | c :: cs, i => by
    simp only [expectedTrace, indexedFrom, List.filterMap_cons, List.filterMap_append]
    rw [expectedTrace_fetches free n cs (i + 1)]
    have hsleep : (sleepEvents free n i).filterMap
        (fun e => match e with
          | FetchEvent.fetch j c => some (j, c)
          | FetchEvent.sleep _ => none) = [] := by
      unfold sleepEvents
      split_ifs <;> simp
    rw [hsleep]
    simp

/-! ### Claim theorems C1, C2, C6 -/

/-- Concrete 201-identifier input for the 3-batch witness run. -/
def wIds3 : List String := (List.range 201).map (fun k => toString (100 + k))

/-- Oracle for the witness run: batch 2 suffers a transport error. -/
def wOracle3 : Nat → TransportOutcome :=
  fun i => if i = 2 then TransportOutcome.requestError
           else TransportOutcome.success [("data", ApiJson.arr [])]

/-- C1: every batch whose API call ends in a RequestException
(transport error, or non-2xx status via `raise_for_status`) is recorded
as (batch index, identifier list) in the failure list and the run
continues: in a 3-batch run where exactly batch 2 fails this way, the
results sequence is exactly the payloads of batches 1 and 3 and the
failure list is exactly [(2, batch 2's identifiers)]. -/
theorem fetcher_failure_recorded :
    (∀ (oracle : Nat → TransportOutcome) (tweet_ids : List String) (is_free_plan : Bool)
        (i : Nat) (c : List String),
        (i, c) ∈ indexedFrom 1 (chunk_list (sortStrings tweet_ids) 100) →
        oracle i = TransportOutcome.requestError →
        (i, c) ∈ (fetch_all_tweets oracle tweet_ids is_free_plan).failures) ∧
    (∀ (oracle : Nat → TransportOutcome) (tweet_ids : List String) (is_free_plan : Bool)
        (c1 c2 c3 : List String) (d1 d3 : List (String × ApiJson)),
        chunk_list (sortStrings tweet_ids) 100 = [c1, c2, c3] →
        oracle 1 = TransportOutcome.success d1 → batchOk d1 = true →
        oracle 2 = TransportOutcome.requestError →
        oracle 3 = TransportOutcome.success d3 → batchOk d3 = true →
        (fetch_all_tweets oracle tweet_ids is_free_plan).results = [d1, d3] ∧
          (fetch_all_tweets oracle tweet_ids is_free_plan).failures = [(2, c2)]) := by
  constructor
  · intro oracle ids free i c hmem horacle
    rw [fetch_all_failures]
    refine List.mem_filter.mpr ⟨hmem, ?_⟩
    simp [horacle, get_posts_from_x_api, batchOk]
  · intro oracle ids free c1 c2 c3 d1 d3 hch h1 hok1 h2 h3 hok3
    rw [fetch_all_results, fetch_all_failures, hch]
    simp only [indexedFrom, List.filterMap_cons, List.filter_cons, resultOf,
      get_posts_from_x_api, h1, h2, h3, hok1, hok3]
    constructor
    · simp [batchOk]
    · simp [batchOk]

/-- Witness for C1: the concrete 3-batch run where batch 2 has a
transport error. -/
theorem fetcher_failure_recorded_witness :
    (fetch_all_tweets wOracle3 wIds3 true).results =
        [[("data", ApiJson.arr [])], [("data", ApiJson.arr [])]] ∧
      (fetch_all_tweets wOracle3 wIds3 true).failures =
        [(2, (List.range 100).map (fun k => toString (200 + k)))] :=
  fetcher_failure_recorded.2 wOracle3 wIds3 true
    ((List.range 100).map (fun k => toString (100 + k)))
    ((List.range 100).map (fun k => toString (200 + k)))
    ["300"] [("data", ApiJson.arr [])] [("data", ApiJson.arr [])]
    (by decide) rfl (by decide) rfl rfl (by decide)

/-- Oracle returning a well-formed response whose item list is empty. -/
def cexOracleEmptyList : Nat → TransportOutcome :=
  fun _ => TransportOutcome.success [("data", ApiJson.arr [])]

/-- C2 counterexample: a single-batch run whose API call succeeds with
the response `{"data": []}` — an empty item list under the `data`
key — is appended to the results sequence as a success and is NOT
recorded in the failure list, contrary to the claim. -/
theorem fetcher_empty_payload_counterexample :
    (fetch_all_tweets cexOracleEmptyList ["5"] true).results =
        [[("data", ApiJson.arr [])]] ∧
      (fetch_all_tweets cexOracleEmptyList ["5"] true).failures = [] :=
  ⟨rfl, rfl⟩

/-- C2 (amended): a batch is recorded in the failure list — with no
FetchResult appended for it — exactly when its returned response
dictionary is empty (falsy) or lacks the top-level `data` key; a
response that has a `data` key, even mapping to an empty item list, is
appended as a success.  Results are exactly the passing payloads in
batch order and failures exactly the non-passing batches in order. -/
theorem fetcher_soft_failure :
    (∀ (oracle : Nat → TransportOutcome) (tweet_ids : List String) (is_free_plan : Bool),
        (fetch_all_tweets oracle tweet_ids is_free_plan).results =
            (indexedFrom 1 (chunk_list (sortStrings tweet_ids) 100)).filterMap
              (fun p => resultOf oracle p.1) ∧
          (fetch_all_tweets oracle tweet_ids is_free_plan).failures =
            (indexedFrom 1 (chunk_list (sortStrings tweet_ids) 100)).filter
              (fun p => !batchOk (get_posts_from_x_api (oracle p.1)))) ∧
    (∀ (oracle : Nat → TransportOutcome) (tweet_ids : List String) (is_free_plan : Bool)
        (i : Nat) (c : List String) (d : List (String × ApiJson)),
        (i, c) ∈ indexedFrom 1 (chunk_list (sortStrings tweet_ids) 100) →
        oracle i = TransportOutcome.success d →
        (d.isEmpty || !(d.lookup "data").isSome) = true →
        (i, c) ∈ (fetch_all_tweets oracle tweet_ids is_free_plan).failures ∧
          resultOf oracle i = none) := by
  constructor
  · intro oracle ids free
    exact ⟨fetch_all_results oracle ids free, fetch_all_failures oracle ids free⟩
  · intro oracle ids free i c d hmem ho hbad
    have hnotok : batchOk (get_posts_from_x_api (oracle i)) = false := by
      rw [ho]
      rcases (Bool.or_eq_true _ _).mp hbad with hb | hb
      · simp [get_posts_from_x_api, batchOk, hb]
      · simp only [Bool.not_eq_true'] at hb
        simp [get_posts_from_x_api, batchOk, hb]
    constructor
    · rw [fetch_all_failures]
      exact List.mem_filter.mpr ⟨hmem, by simp [hnotok]⟩
    · simp [resultOf, hnotok]

/-- Oracle whose successful response is the empty dictionary. -/
def wOracleEmptyDict : Nat → TransportOutcome :=
  fun _ => TransportOutcome.success []

/-- Witness for C2 (amended): a success whose body is the empty
dictionary is recorded as a soft failure with nothing appended. -/
theorem fetcher_soft_failure_witness :
    (1, ["7"]) ∈ (fetch_all_tweets wOracleEmptyDict ["7"] true).failures ∧
      resultOf wOracleEmptyDict 1 = none :=
  fetcher_soft_failure.2 wOracleEmptyDict ["7"] true 1 ["7"] [] (by decide) rfl rfl

/-- Concrete 101-identifier input producing a 2-batch free-plan run. -/
def cexDelayIds : List String := (List.range 101).map (fun k => toString (100 + k))

/-- All-success oracle for the delay counterexample run. -/
def cexDelayOracle : Nat → TransportOutcome :=
  fun _ => TransportOutcome.success [("data", ApiJson.arr [])]

/-- C6 counterexample: a free-plan run with 2 batches produces the
event trace [fetch 1, sleep 900, fetch 2]: no pause precedes the first
batch (which is not the last), while a 900-unit pause immediately
precedes the LAST batch — contradicting "a fixed 900 time-unit pause
before every batch except the last". -/
theorem delay_policy_counterexample :
    (fetch_all_tweets cexDelayOracle cexDelayIds true).trace =
      [FetchEvent.fetch 1 ((List.range 100).map (fun k => toString (100 + k))),
       FetchEvent.sleep 900,
       FetchEvent.fetch 2 ["200"]] := by
  decide

/-- C6 (amended): the run's event trace equals the closed-form policy
trace `expectedTrace`: in constrained (free) mode a fixed 900-unit
pause occurs after every batch except the last (equivalently, before
every batch except the first); in elevated (paid) mode a fixed 60-unit
pause occurs after each non-final batch exactly when the total batch
count exceeds 15, and otherwise no pause occurs; and the fetch events
of the trace are exactly the indexed batches in order — no batch is
skipped or reordered because of a pause. -/
theorem delay_policy :
    ∀ (oracle : Nat → TransportOutcome) (tweet_ids : List String) (is_free_plan : Bool),
      (fetch_all_tweets oracle tweet_ids is_free_plan).trace =
          expectedTrace is_free_plan (chunk_list (sortStrings tweet_ids) 100).length 1
            (chunk_list (sortStrings tweet_ids) 100) ∧
        (fetch_all_tweets oracle tweet_ids is_free_plan).trace.filterMap
            (fun e => match e with
              | FetchEvent.fetch j c => some (j, c)
              | FetchEvent.sleep _ => none) =
          indexedFrom 1 (chunk_list (sortStrings tweet_ids) 100) := by
  intro oracle ids free
  refine ⟨fetch_all_trace oracle ids free, ?_⟩
  rw [fetch_all_trace]
  exact expectedTrace_fetches free _ _ 1

/-! ### Media Resolver and per-tweet persistence: `save_individual_tweet`

Dictionaries from the decoded API response are modelled as structures
with `Option` fields (`none` = key absent), and every `dict.get(k, d)`
of the source becomes `Option.getD`.  Filesystem writes and media
downloads (`download_media_file`, whose success is decided by the `dl`
oracle) are recorded as events; paths are component lists. -/

structure Variant where
  bit_rate : Option Nat
  url : Option String
deriving DecidableEq

structure MediaInfo where
  media_key : Option String
  type : Option String
  url : Option String
  variants : Option (List Variant)
deriving DecidableEq

structure AttachmentsDict where
  media_keys : Option (List String)
deriving DecidableEq

structure TweetData where
  id : Option String
  attachments : Option AttachmentsDict
deriving DecidableEq

structure IncludesData where
  media : Option (List MediaInfo)
deriving DecidableEq

inductive SaveEvent where
  | mkdirP (path : List String)
  | writeJson (path : List String)
  | download (url : String) (path : List String) (ok : Bool)
deriving DecidableEq

/-- One step of the `for variant in variants` maximum-bitrate scan:
`bitrate = variant.get("bit_rate", 0); if bitrate > max_bitrate: ...`. -/
def videoFolder (acc : Nat × String) (v : Variant) : Nat × String :=
  let bitrate := v.bit_rate.getD 0
  if bitrate > acc.1 then (bitrate, v.url.getD "") else acc

/-- The `(max_bitrate, media_url)` pair computed for a video's
variants, starting from `(0, "")`. -/
def videoVariantPick (variants : List Variant) : Nat × String :=
  variants.foldl videoFolder (0, "")

/-- State of the `for media_key in media_keys` loop. -/
structure MediaLoopState where
  photo_count : Nat
  video_count : Nat
  gif_count : Nat
  media_count : Nat
  events : List SaveEvent
deriving DecidableEq

/-- The tail of one loop iteration: `if media_url:` download the file
(creating parents) into `output_path / (filename + extension)` and
count it on success. -/
def finishKey (dl : String → Bool) (output_path : List String) (st : MediaLoopState)
    (filename : String) (media_type : String) (media_url : String) : MediaLoopState :=
  if media_url ≠ "" then
    let extension := get_media_extension media_type media_url
    let filepath := output_path ++ [filename ++ extension]
    let ok := dl media_url
    { st with events := st.events ++ [SaveEvent.download media_url filepath ok],
              media_count := if ok then st.media_count + 1 else st.media_count }
  else st

/-- One iteration of the `for media_key in media_keys` loop: find the
first media entry with this key (skip if absent), dispatch on its type
and bump the per-type counter, resolve the URL, then download. -/
def processMediaKey (dl : String → Bool) (output_path : List String)
    (media_data : List MediaInfo) (st : MediaLoopState) (media_key : String) :
    MediaLoopState :=
  match media_data.find? (fun m => m.media_key == some media_key) with
  | none => st
  | some media_info =>
    let media_type := media_info.type.getD ""
    if media_type = "photo" then
      let photo_count := st.photo_count + 1
      let filename := "photo_" ++ toString photo_count
      let media_url := media_info.url.getD ""
      finishKey dl output_path { st with photo_count := photo_count }
        filename media_type media_url
    else if media_type = "video" then
      let video_count := st.video_count + 1
      let filename := "video_" ++ toString video_count
      let media_url := (videoVariantPick (media_info.variants.getD [])).2
      finishKey dl output_path { st with video_count := video_count }
        filename media_type media_url
    else if media_type = "animated_gif" then
      let gif_count := st.gif_count + 1
      let filename := "gif_" ++ toString gif_count
      let variants := media_info.variants.getD []
      let media_url :=
        match variants with
        | [] => ""
        | v :: _ => v.url.getD ""
      finishKey dl output_path { st with gif_count := gif_count }
        filename media_type media_url
    else st

/-- `save_individual_tweet`: returns the downloaded-media count and the
write/download events performed. -/
def save_individual_tweet (dl : String → Bool) (tweet_data : TweetData)
    (includes_data : IncludesData) (output_dir : String) : Nat × List SaveEvent :=
  match tweet_data.id with
  | none => (0, [])
  | some tweet_id =>
    if tweet_id = "" then (0, [])
    else
      let output_path := [output_dir, "individual_tweets", tweet_id]
      let ev0 := [SaveEvent.mkdirP output_path,
        SaveEvent.writeJson (output_path ++ ["tweet.json"])]
      let media_data := includes_data.media.getD []
      if (!media_data.isEmpty && tweet_data.attachments.isSome) = true then
        let media_keys :=
          ((tweet_data.attachments.getD { media_keys := none }).media_keys).getD []
        let final := media_keys.foldl (processMediaKey dl output_path media_data)
          { photo_count := 0, video_count := 0, gif_count := 0, media_count := 0,
            events := ev0 }
        (final.media_count, final.events)
      else (0, ev0)

theorem videoFolder_noupdate :
    ∀ (vs : List Variant) (acc : Nat × String),
      (∀ w ∈ vs, w.bit_rate.getD 0 ≤ acc.1) → vs.foldl videoFolder acc = acc
  | [], _, _ => rfl
  | w :: ws, acc, h => by
    have hw : w.bit_rate.getD 0 ≤ acc.1 := h w (by simp)
    have hstep : videoFolder acc w = acc := by
      unfold videoFolder
      simp [Nat.not_lt.mpr hw]
    rw [List.foldl_cons, hstep]
    exact videoFolder_noupdate ws acc (fun x hx => h x (by simp [hx]))

theorem videoFold_max :
    ∀ (vs : List Variant) (acc : Nat × String) (v : Variant),
      v ∈ vs → acc.1 < v.bit_rate.getD 0 →
      (∀ w ∈ vs, w ≠ v → w.bit_rate.getD 0 < v.bit_rate.getD 0) →
      (vs.foldl videoFolder acc).2 = v.url.getD ""
  | [], _, _, hv, _, _ => absurd hv (by simp)
  | w :: ws, acc, v, hv, hacc, hmax => by
    by_cases hwv : w = v
    · subst hwv
      have hstep : videoFolder acc w = (w.bit_rate.getD 0, w.url.getD "") := by
        unfold videoFolder
        simp [hacc]
      rw [List.foldl_cons, hstep,
        videoFolder_noupdate ws (w.bit_rate.getD 0, w.url.getD "") ?_]
      · intro x hx
        by_cases hxv : x = w
        · subst hxv
          exact le_rfl
        · exact le_of_lt (hmax x (by simp [hx]) hxv)
    · have hvin : v ∈ ws := by
        rcases List.mem_cons.mp hv with h | h
        · exact absurd h.symm hwv
        · exact h
      rw [List.foldl_cons]
      apply videoFold_max ws (videoFolder acc w) v hvin ?_
        (fun x hx hxv => hmax x (by simp [hx]) hxv)
      have hw_lt : w.bit_rate.getD 0 < v.bit_rate.getD 0 := hmax w (by simp) hwv
      unfold videoFolder
      by_cases hb : w.bit_rate.getD 0 > acc.1 <;> simp [hb] <;> omega

theorem videoVariantPick_no_url :
    ∀ (vs : List Variant), (∀ w ∈ vs, w.url.getD "" = "") →
      (videoVariantPick vs).2 = "" := by
  have key : ∀ (vs : List Variant) (acc : Nat × String), acc.2 = "" →
      (∀ w ∈ vs, w.url.getD "" = "") → (vs.foldl videoFolder acc).2 = "" := by
    intro vs
    induction vs with
    | nil => intro acc hacc _; exact hacc
    | cons w ws ih =>
      intro acc hacc h
      rw [List.foldl_cons]
      apply ih
      · unfold videoFolder
        by_cases hb : w.bit_rate.getD 0 > acc.1 <;>
          simp [hb, h w (by simp), hacc]
      · intro x hx
        exact h x (by simp [hx])
  intro vs h
  exact key vs (0, "") rfl h

/-! ### Claim theorems C7 and C10 -/

/-- Concrete tweet with one video attachment, bitrates 500/2000/1200. -/
def c7Tweet : TweetData :=
  { id := some "42", attachments := some { media_keys := some ["mk1"] } }

def c7Includes : IncludesData :=
  { media := some
      [{ media_key := some "mk1", type := some "video", url := none,
         variants := some
           [{ bit_rate := some 500, url := some "https://v.example/lo.mp4" },
            { bit_rate := some 2000, url := some "https://v.example/hi.mp4" },
            { bit_rate := some 1200, url := some "https://v.example/mid.mp4" }] }] }

/-- Concrete tweet whose first attachment is a video with no usable
variant URL, followed by a photo attachment. -/
def c7TweetSkip : TweetData :=
  { id := some "43", attachments := some { media_keys := some ["bad", "ph"] } }

def c7IncludesSkip : IncludesData :=
  { media := some
      [{ media_key := some "bad", type := some "video", url := none,
         variants := some [{ bit_rate := some 9000, url := none }] },
       { media_key := some "ph", type := some "photo",
         url := some "https://p.example/a.jpg", variants := none }] }

/-- C7: for every video descriptor the Media Resolver selects the
variant with the strictly highest bitrate; concretely, a video with
variant bitrates [500, 2000, 1200] downloads the 2000-bitrate URL saved
with extension `.mp4`; and a video none of whose variants carries a
usable URL is skipped (no download event) without aborting the
processing of the remaining media — a following photo is still
downloaded. -/
theorem media_resolver_video :
    (∀ (vs : List Variant) (v : Variant),
        v ∈ vs → 0 < v.bit_rate.getD 0 →
        (∀ w ∈ vs, w ≠ v → w.bit_rate.getD 0 < v.bit_rate.getD 0) →
        (videoVariantPick vs).2 = v.url.getD "") ∧
    save_individual_tweet (fun _ => true) c7Tweet c7Includes "data" =
      (1, [SaveEvent.mkdirP ["data", "individual_tweets", "42"],
           SaveEvent.writeJson ["data", "individual_tweets", "42", "tweet.json"],
           SaveEvent.download "https://v.example/hi.mp4"
             ["data", "individual_tweets", "42", "video_1.mp4"] true]) ∧
    save_individual_tweet (fun _ => true) c7TweetSkip c7IncludesSkip "data" =
      (1, [SaveEvent.mkdirP ["data", "individual_tweets", "43"],
           SaveEvent.writeJson ["data", "individual_tweets", "43", "tweet.json"],
           SaveEvent.download "https://p.example/a.jpg"
             ["data", "individual_tweets", "43", "photo_1.jpg"] true]) := by
  refine ⟨?_, rfl, rfl⟩
  intro vs v hv hpos hmax
  exact videoFold_max vs (0, "") v hv hpos hmax

/-- Witness for C7 at the concrete [500, 2000, 1200] variant list. -/
theorem media_resolver_video_witness :
    (videoVariantPick
        [{ bit_rate := some 500, url := some "lo" },
         { bit_rate := some 2000, url := some "hi" },
         { bit_rate := some 1200, url := some "mid" }]).2 = "hi" :=
  media_resolver_video.1 _ { bit_rate := some 2000, url := some "hi" }
    (by decide) (by decide) (by decide)

/-- C10: an item record whose `id` key is missing or empty yields a
media count of 0 and performs no writes at all — no directory, no raw
JSON document, no download attempt. -/
theorem save_missing_id :
    ∀ (dl : String → Bool) (tweet_data : TweetData) (includes_data : IncludesData)
      (output_dir : String),
      tweet_data.id = none ∨ tweet_data.id = some "" →
      save_individual_tweet dl tweet_data includes_data output_dir = (0, []) := by
  intro dl td inc dir h
  rcases h with h | h <;> simp [save_individual_tweet, h]

/-- Witness for C10 at a concrete record with an empty identifier. -/
theorem save_missing_id_witness :
    save_individual_tweet (fun _ => true)
        { id := some "", attachments := none } { media := some [] } "data" = (0, []) :=
  save_missing_id (fun _ => true) _ _ "data" (Or.inr rfl)

/-! ### Entry point: `main` and `process_existing_tweets_data`

Command-line parsing, the filesystem and the environment are external
collaborators: the parsed argument namespace, the existence of the
input files, the JSON decodability of the aggregate document, the
environment credential and the parsed CSV rows are inputs.  Only the
control flow deciding the exit status is modelled; the fetching and
saving calls do not influence it. -/

structure Args where
  input_csv : String
  column : String
  output_dir : String
  fetch_tweets : Bool
  bearer_token : Option String
  paid_plan : Bool
  save_individual : Bool
  no_save_individual : Bool
  process_json : Option String
deriving DecidableEq

inductive ProcJsonResult where
  | fileMissing
  | processed
  | decodeError
deriving DecidableEq

/-- `process_existing_tweets_data`: if the JSON file does not exist it
prints an error and returns; a JSON decode error is caught and
reported; in every case the function returns None — it produces no
exit status of its own. -/
def process_existing_tweets_data (json_exists : Bool) (decode_ok : Bool) : ProcJsonResult :=
  if !json_exists then ProcJsonResult.fileMissing
  else if decode_ok then ProcJsonResult.processed
  else ProcJsonResult.decodeError

/-- Python `a or b` on an optional string (empty string is falsy):
`args.bearer_token or os.getenv("X_BEARER_TOKEN")`. -/
def pyOrStr (a b : Option String) : Option String :=
  match a with
  | some s => if s ≠ "" then some s else b
  | none => b

/-- Python truthiness of the resulting token (`if not bearer_token`). -/
def truthyTok : Option String → Bool
  | none => false
  | some s => s ≠ ""

/-- Exit status of `main`. -/
def main (args : Args) (env_bearer_token : Option String) (input_csv_exists : Bool)
    (json_exists : Bool) (decode_ok : Bool)
    (rows : List (List (String × String))) : Nat :=
  if truthyTok args.process_json = true then
    let _ := process_existing_tweets_data json_exists decode_ok
    0
  else
    if !input_csv_exists then 1
    else
      let tweet_ids := extract_tweet_ids_from_csv rows args.column
      if tweet_ids = ∅ then 0
      else if args.fetch_tweets then
        let bearer_token := pyOrStr args.bearer_token env_bearer_token
        if truthyTok bearer_token = false then 1 else 0
      else 0

/-! ### Claim theorem C9 -/

/-- Reprocess-mode arguments pointing at a JSON file. -/
def cexArgsReprocess : Args :=
  { input_csv := "input.csv", column := "検証対象URL", output_dir := "data",
    fetch_tweets := false, bearer_token := none, paid_plan := false,
    save_individual := true, no_save_individual := false,
    process_json := some "missing.json" }

/-- C9 counterexample: in reprocess mode with the input JSON file
missing (`process_existing_tweets_data` takes its missing-file path),
the program still exits 0, not 1 — contradicting "exit status 1
exactly on a missing input file ... covering reprocess mode". -/
theorem exit_code_counterexample :
    process_existing_tweets_data false true = ProcJsonResult.fileMissing ∧
      main cexArgsReprocess none false false true [] = 0 :=
  ⟨rfl, rfl⟩

/-- C9 (amended): the exit status is always 0 or 1; reprocess mode —
selected whenever `process_json` is truthy (present and non-empty) —
always exits 0, even when its input file is missing; otherwise extract
mode runs and exits 1 exactly when the input CSV is missing, or when
identifiers were found and fetching was requested but no credential is
available from the argument or the environment; every other run exits
0. -/
theorem exit_codes :
    ∀ (args : Args) (env : Option String) (csv_exists json_exists decode_ok : Bool)
      (rows : List (List (String × String))),
      (main args env csv_exists json_exists decode_ok rows = 0 ∨
        main args env csv_exists json_exists decode_ok rows = 1) ∧
      (main args env csv_exists json_exists decode_ok rows = 1 ↔
        truthyTok args.process_json = false ∧
          (csv_exists = false ∨
            (csv_exists = true ∧ extract_tweet_ids_from_csv rows args.column ≠ ∅ ∧
              args.fetch_tweets = true ∧
              truthyTok (pyOrStr args.bearer_token env) = false))) := by
  intro args env csv_exists json_exists decode_ok rows
  unfold main
  cases hpj : truthyTok args.process_json with
  | true => simp [hpj]
  | false =>
    cases csv_exists with
    | false => simp [hpj]
    | true =>
      by_cases hids : extract_tweet_ids_from_csv rows args.column = ∅
      · simp [hpj, hids]
      · cases hft : args.fetch_tweets with
        | false => simp [hpj, hids, hft]
        | true =>
          cases htok : truthyTok (pyOrStr args.bearer_token env) with
          | false => simp [hpj, hids, hft, htok]
          | true => simp [hpj, hids, hft, htok]

end PrepareTweetContents
